import Mathlib

/-!
Shallow embedding of the PDF question-answering system in
`src/ingest.py`, `src/search.py` and `src/chat.py`.

Modelling conventions:
* Python strings are Lean `String`s; the raw document text handled by the
  chunker is modelled as `List Char`, so lengths are character counts
  (matching `length_function=len`).
* A raised Python exception is modelled as `Except.error msg`; a caught
  exception corresponds to taking the `.error` branch of a `match`.
* The external collaborators (the PostgreSQL/pgvector store, the OpenAI and
  Google backends, the PDF loader) are modelled by explicit environment
  records (`Search.SearchEnv`, `Ingest.IngestEnv`) that state how each
  external call would behave if made.
* Similarity scores are backend floats that the Python code never inspects;
  an opaque integer stand-in is used for them.
-/

/-- Provider configuration read from the process environment at module load
(`search.py` lines 14-18, `ingest.py` lines 21-26): the `LLM_PROVIDER`
switch and the two optional API keys. -/
structure Config where
  llm_provider : String
  openai_api_key : Option String
  google_api_key : Option String

/-- Python truthiness of `not KEY` for an optional environment variable:
an unset variable (`None`) or an empty string counts as missing. -/
def missingKey : Option String → Bool
  | none => true
  | some s => s == ""

/-- An embeddings client as returned by `get_embeddings`: the provider tag
and the embedding model name passed to the constructor. -/
structure Embeddings where
  provider : String
  model : String
deriving DecidableEq

/-- A chat model as returned by `get_llm` (`search.py` lines 66-85): the
provider tag, the model name and the temperature passed to the constructor. -/
structure LLM where
  provider : String
  model : String
  temperature : Nat
deriving DecidableEq

/-- A `PGVector` handle: the constructor arguments that the claims are
about (`collection_name` and the `pre_delete_collection` flag). -/
structure VectorStore where
  collection_name : String
  pre_delete_collection : Bool
deriving DecidableEq

/-- A retrieved document; only `page_content` is ever read by the query
path (`search.py` line 116). -/
structure Doc where
  page_content : String
deriving DecidableEq

/-- Opaque stand-in for the float similarity score attached to each
retrieval result; no code under verification inspects it. -/
abbrev Score := Int

/-- Python `str.strip()`: remove whitespace from both ends. -/
def pyStrip (s : String) : String :=
  String.mk (((s.data.dropWhile Char.isWhitespace).reverse.dropWhile
    Char.isWhitespace).reverse)

/-- Python `str.lower()` (ASCII case folding, which covers every command
string the chat loop compares against). -/
def pyLower (s : String) : String :=
  String.mk (s.data.map Char.toLower)

namespace Ingest

/-- `chunk_size=1000` passed to the text splitter (`ingest.py` line 94). -/
def chunk_size : Nat := 1000

/-- `chunk_overlap=150` passed to the text splitter (`ingest.py` line 95). -/
def chunk_overlap : Nat := 150

/-- The separator priority list passed to the text splitter
(`ingest.py` line 97): double newline, newline, space, empty string. -/
def separators : List (List Char) := [['\n', '\n'], ['\n'], [' '], []]

/-- Total character count of a list of text pieces. -/
def totalLen (l : List (List Char)) : Nat := (l.map List.length).sum

/-- Modelled from the spec: the repository delegates chunking to
`RecursiveCharacterTextSplitter`, whose source is not part of the
repository; this and the following chunker definitions follow the spec
§4.1 algorithm description. `sepSplitAux` splits text at every occurrence
of a separator (the fuel argument, instantiated with the text length,
only makes the recursion structural; it never runs out). -/
def sepSplitAux (sep : List Char) : Nat → List Char → List Char → List (List Char)
  | _, [], acc => [acc.reverse]
  | 0, rest, acc => [acc.reverse ++ rest]
  | fuel + 1, c :: rest, acc =>
    if sep.isPrefixOf (c :: rest) then
      acc.reverse :: sepSplitAux sep fuel (List.drop (sep.length - 1) rest) []
    else
      sepSplitAux sep fuel rest (c :: acc)

/-- Modelled from the spec: split text on a separator. -/
def sepSplit (sep s : List Char) : List (List Char) :=
  sepSplitAux sep s.length s []

/-- Modelled from the spec: whether the separator occurs in the text. -/
def containsSub (sep : List Char) : List Char → Bool
  | [] => sep.isPrefixOf []
  | c :: rest => sep.isPrefixOf (c :: rest) || containsSub sep rest

/-- Modelled from the spec: hard-cut a piece that no separator could break
into segments of at most `cs` characters (fuel as in `sepSplitAux`). -/
def hardCutAux (cs : Nat) : Nat → List Char → List (List Char)
  | _, [] => []
  | 0, s => [s]
  | fuel + 1, c :: rest =>
    List.take cs (c :: rest) :: hardCutAux cs fuel (List.drop cs (c :: rest))

/-- Modelled from the spec: hard cut at `cs` characters. -/
def hardCut (cs : Nat) (s : List Char) : List (List Char) :=
  hardCutAux cs s.length s

/-- Modelled from the spec: recursively split on the most natural separator
present in the text so that every resulting piece is at most `cs`
characters, hard-cutting when the separators are exhausted. -/
def splitRec (cs : Nat) : List (List Char) → List Char → List (List Char)
  | [], text => if text.length ≤ cs then [text] else hardCut cs text
  | sep :: restSeps, text =>
    if text.length ≤ cs then [text]
    else if sep.isEmpty then hardCut cs text
    else if containsSub sep text then
      (sepSplit sep text).flatMap (fun piece => splitRec cs restSeps piece)
    else splitRec cs restSeps text

/-- Modelled from the spec: when a chunk is full, slide the window back,
retaining the most recent pieces whose total length fits both within the
overlap budget `ov` and, together with the incoming piece of length
`plen`, within the chunk budget `cs` (oldest pieces are dropped first). -/
def keepOverlap (ov cs plen : Nat) : List (List Char) → List (List Char)
  | [] => []
  | p :: rest =>
    if ov < totalLen (p :: rest) ∨ cs < totalLen (p :: rest) + plen then
      keepOverlap ov cs plen rest
    else p :: rest

/-- Modelled from the spec: re-merge adjacent small pieces into chunks of
at most `cs` characters, carrying at most `ov` characters of trailing
pieces over into the next chunk. `cur` is the chunk under construction,
in document order. -/
def mergeGo (cs ov : Nat) : List (List Char) → List (List Char) → List (List Char)
  | [], cur => if cur.isEmpty then [] else [cur.flatten]
  | p :: rest, cur =>
    if totalLen cur + p.length ≤ cs then
      mergeGo cs ov rest (cur ++ [p])
    else
      cur.flatten :: mergeGo cs ov rest (keepOverlap ov cs p.length cur ++ [p])

/-- Modelled from the spec: full chunking of one document text — recursive
separator splitting, dropping empty pieces, then overlap-aware merging.
An empty document yields an empty chunk sequence (spec §4.1 edge case). -/
def chunkText (cs ov : Nat) (seps : List (List Char)) (text : List Char) :
    List (List Char) :=
  mergeGo cs ov ((splitRec cs seps text).filter (fun p => !p.isEmpty)) []

/-- `text_splitter.split_documents(documents)` (`ingest.py` lines 93-100):
each loaded page is chunked independently with the configured parameters,
preserving document order. -/
def split_documents (pages : List (List Char)) : List (List Char) :=
  pages.flatMap (chunkText chunk_size chunk_overlap separators)

/-- `get_embeddings` (`ingest.py` lines 31-48): validate the configured
provider's key, then build the embeddings client. -/
def get_embeddings (cfg : Config) : Except String Embeddings :=
  if cfg.llm_provider = "openai" then
    if missingKey cfg.openai_api_key then
      .error "OPENAI_API_KEY não configurada"
    else .ok ⟨"openai", "text-embedding-3-small"⟩
  else if cfg.llm_provider = "google" then
    if missingKey cfg.google_api_key then
      .error "GOOGLE_API_KEY não configurada"
    else .ok ⟨"google", "models/embedding-001"⟩
  else .error ("Provedor não suportado: " ++ cfg.llm_provider)

/-- Behaviour of the external world on the ingestion path: whether the PDF
exists, its extracted page texts, whether the engine-based and the
string-based `PGVector` constructions succeed, and whether
`add_documents` succeeds. -/
structure IngestEnv where
  pdf_path : String
  pdf_exists : Bool
  pages : List (List Char)
  engine_ok : Bool
  fallback_ok : Bool
  fallback_error : String
  add_ok : Bool
  add_error : String

/-- `get_vector_store` (`ingest.py` lines 50-75): embeddings first (a
missing key propagates), then the engine-based construction with a
fallback to a plain connection string; both constructions use the
collection name `pdf_documents` and `pre_delete_collection=False`. -/
def get_vector_store (cfg : Config) (env : IngestEnv) : Except String VectorStore :=
  match get_embeddings cfg with
  | .error e => .error e
  | .ok _ =>
    if env.engine_ok then .ok ⟨"pdf_documents", false⟩
    else if env.fallback_ok then .ok ⟨"pdf_documents", false⟩
    else .error env.fallback_error

/-- The summary dict returned by `process_pdf` (`ingest.py` lines 111-115). -/
structure IngestSummary where
  status : String
  message : String
  chunks_count : Nat
deriving DecidableEq

/-- `process_pdf` (`ingest.py` lines 77-119): existence check, load, chunk,
store construction, `add_documents`. On success the model also returns the
chunk list handed to `add_documents`, the observable write to the store;
any raised exception is re-raised to the caller. -/
def process_pdf (cfg : Config) (env : IngestEnv) :
    Except String (List (List Char) × IngestSummary) :=
  if !env.pdf_exists then .error ("PDF não encontrado: " ++ env.pdf_path)
  else
    let chunks := split_documents env.pages
    match get_vector_store cfg env with
    | .error e => .error e
    | .ok _ =>
      if env.add_ok then
        .ok (chunks,
          ⟨"success",
           "PDF processado com sucesso. " ++ toString chunks.length ++
             " chunks criados.",
           chunks.length⟩)
      else .error env.add_error

/-- Module-level startup of the ingestion server (`ingest.py` lines 18-29
and 154-157): `load_dotenv`, reading the configuration variables and
constructing the FastAPI app perform no credential validation, so startup
always succeeds with the app, whatever the configuration. -/
def ingest_server_startup (_cfg : Config) : Except String String :=
  .ok "PDF Ingestão API"

/-- The `/ingest` endpoint (`ingest.py` lines 125-132): HTTP 200 with the
summary message on success, HTTP 500 with the exception text on failure. -/
def ingest_endpoint (cfg : Config) (env : IngestEnv) : Nat × String :=
  match process_pdf cfg env with
  | .ok (_, summary) => (200, summary.message)
  | .error e => (500, e)

end Ingest

namespace Search

/-- The grounding prompt `PROMPT_TEMPLATE` (`search.py` lines 20-45), with
the `contexto` and `pergunta` placeholders substituted as
`ChatPromptTemplate` does on `chain.invoke`. -/
def PROMPT_TEMPLATE (contexto pergunta : String) : String :=
  "\nCONTEXTO:\n" ++ contexto ++
  "\n\nREGRAS:\n- Responda somente com base no CONTEXTO.\n" ++
  "- Se a informação não estiver explicitamente no CONTEXTO, responda:\n" ++
  "  \"Não tenho informações necessárias para responder sua pergunta.\"\n" ++
  "- Nunca invente ou use conhecimento externo.\n" ++
  "- Nunca produza opiniões ou interpretações além do que está escrito.\n\n" ++
  "EXEMPLOS DE PERGUNTAS FORA DO CONTEXTO:\n" ++
  "Pergunta: \"Qual é a capital da França?\"\n" ++
  "Resposta: \"Não tenho informações necessárias para responder sua pergunta.\"\n\n" ++
  "Pergunta: \"Quantos clientes temos em 2024?\"\n" ++
  "Resposta: \"Não tenho informações necessárias para responder sua pergunta.\"\n\n" ++
  "Pergunta: \"Você acha isso bom ou ruim?\"\n" ++
  "Resposta: \"Não tenho informações necessárias para responder sua pergunta.\"\n\n" ++
  "PERGUNTA DO USUÁRIO:\n" ++ pergunta ++
  "\n\nRESPONDA A \"PERGUNTA DO USUÁRIO\"\n"

/-- `get_embeddings` (`search.py` lines 47-64); the same validation logic
as `Ingest.get_embeddings`, duplicated because the source duplicates it. -/
def get_embeddings (cfg : Config) : Except String Embeddings :=
  if cfg.llm_provider = "openai" then
    if missingKey cfg.openai_api_key then
      .error "OPENAI_API_KEY não configurada"
    else .ok ⟨"openai", "text-embedding-3-small"⟩
  else if cfg.llm_provider = "google" then
    if missingKey cfg.google_api_key then
      .error "GOOGLE_API_KEY não configurada"
    else .ok ⟨"google", "models/embedding-001"⟩
  else .error ("Provedor não suportado: " ++ cfg.llm_provider)

/-- `get_llm` (`search.py` lines 66-85): validate the configured provider's
key and build the chat model at temperature 0. -/
def get_llm (cfg : Config) : Except String LLM :=
  if cfg.llm_provider = "openai" then
    if missingKey cfg.openai_api_key then
      .error "OPENAI_API_KEY não configurada"
    else .ok ⟨"openai", "gpt-4o-mini", 0⟩
  else if cfg.llm_provider = "google" then
    if missingKey cfg.google_api_key then
      .error "GOOGLE_API_KEY não configurada"
    else .ok ⟨"google", "gemini-2.0-flash-exp", 0⟩
  else .error ("Provedor não suportado: " ++ cfg.llm_provider)

/-- Behaviour of the external world on the query path: whether the engine
and `PGVector` construction succeeds (and with which exception text
otherwise), what `similarity_search_with_score` would return for a given
query and `k`, and what the language-model call would return for a given
rendered prompt. -/
structure SearchEnv where
  store_ok : Bool
  store_error : String
  search_result : String → Nat → Except String (List (Doc × Score))
  llm_response : String → Except String String

/-- `get_vector_store` (`search.py` lines 87-97): embeddings first (a
missing key propagates), then engine plus `PGVector` construction with the
collection name `pdf_documents` and `pre_delete_collection=False`; a
connection failure raises. -/
def get_vector_store (cfg : Config) (env : SearchEnv) : Except String VectorStore :=
  match get_embeddings cfg with
  | .error e => .error e
  | .ok _ =>
    if env.store_ok then .ok ⟨"pdf_documents", false⟩
    else .error env.store_error

/-- `search_documents` (`search.py` lines 99-107): construct the store and
run the similarity search inside `try`; any exception is caught, printed,
and turned into the empty result list. -/
def search_documents (cfg : Config) (env : SearchEnv) (query : String)
    (k : Nat) : List (Doc × Score) :=
  match get_vector_store cfg env with
  | .error _ => []
  | .ok _ =>
    match env.search_result query k with
    | .error _ => []
    | .ok results => results

/-- `format_context` (`search.py` lines 109-118): the fixed sentinel for an
empty result list; otherwise one numbered block per document, numbering
from 1 in result order (`enumerate(documents, 1)`), joined by blank lines. -/
def format_context (documents : List (Doc × Score)) : String :=
  if documents.isEmpty then "Nenhum contexto encontrado."
  else
    String.intercalate "\n\n"
      ((List.enumFrom 1 documents).map
        (fun pr => "[" ++ toString pr.1 ++ "] " ++ pr.2.1.page_content))

/-- Spec-side rendering of `format_context`'s loop, written directly from
the spec's words: the block for the document at (1-based) position `i` is
`[i] ` followed by the chunk text, in the order the results were returned. -/
def numbered_blocks (i : Nat) : List (Doc × Score) → List String
  | [] => []
  | (d, _) :: rest =>
    ("[" ++ toString i ++ "] " ++ d.page_content) :: numbered_blocks (i + 1) rest

/-- Observable outcome of one `search_and_answer` call: the returned string
and whether the language model was invoked (`chain.invoke` reached). -/
structure QueryOutcome where
  answer : String
  llm_invoked : Bool
deriving DecidableEq

/-- `search_and_answer` (`search.py` lines 143-171): retrieve with `k=10`;
empty retrieval short-circuits to the fixed refusal sentence without
touching the model; otherwise format the context, build the chain and
invoke the model; any exception inside the `try` is caught and turned
into the fixed internal-error string. -/
def search_and_answer (cfg : Config) (env : SearchEnv) (question : String) :
    QueryOutcome :=
  let documents := search_documents cfg env question 10
  if documents.isEmpty then
    ⟨"Não tenho informações necessárias para responder sua pergunta.", false⟩
  else
    let context := format_context documents
    match get_llm cfg with
    | .error _ => ⟨"Erro interno. Tente novamente.", false⟩
    | .ok _ =>
      match env.llm_response (PROMPT_TEMPLATE context question) with
      | .error _ => ⟨"Erro interno. Tente novamente.", true⟩
      | .ok response => ⟨response, true⟩

end Search

namespace Chat

/-- What one iteration of the chat loop (`chat.py` lines 58-85) does with
one line of input: terminate, print help, re-run the health check, ask for
a non-empty question, or answer through the pipeline. -/
inductive StepAction where
  | done : StepAction
  | helped : StepAction
  | statusChecked (ok : Bool) : StepAction
  | reprompted : StepAction
  | answered (response : String) : StepAction
deriving DecidableEq

/-- `check_system_status` (`chat.py` lines 30-45): try to construct the
vector store; report success as a boolean, catching any exception. -/
def check_system_status (cfg : Config) (env : Search.SearchEnv) : Bool :=
  (Search.get_vector_store cfg env).isOk

/-- One iteration of the `while True` loop in `main` (`chat.py` lines
58-85): strip the raw input, test the exit commands, `help`, `status` and
emptiness in source order, and otherwise answer via `search_and_answer`. -/
def chat_step (cfg : Config) (env : Search.SearchEnv) (rawInput : String) :
    StepAction :=
  let user_input := pyStrip rawInput
  if pyLower user_input = "sair" ∨ pyLower user_input = "quit" ∨
      pyLower user_input = "exit" then .done
  else if pyLower user_input = "help" then .helped
  else if pyLower user_input = "status" then
    .statusChecked (check_system_status cfg env)
  else if user_input = "" then .reprompted
  else .answered (Search.search_and_answer cfg env user_input).answer

/-- The chat loop over a finite sequence of input lines: it records the
action of each turn and stops only when a turn returns `.done`. -/
def chat_loop (cfg : Config) (env : Search.SearchEnv) : List String → List StepAction
  | [] => []
  | i :: rest =>
    let a := chat_step cfg env i
    if a = StepAction.done then [a] else a :: chat_loop cfg env rest

/-- `main` (`chat.py` lines 47-92): run the startup health check; if it
fails, return without serving any input; otherwise run the loop. -/
def chat_main (cfg : Config) (env : Search.SearchEnv) (inputs : List String) :
    List StepAction :=
  if check_system_status cfg env then chat_loop cfg env inputs else []

end Chat

/-! Concrete configurations and environments used by the witnesses and
counterexamples. -/

/-- A well-formed OpenAI configuration. -/
def cfgOpenai : Config := ⟨"openai", some "sk-test", none⟩

/-- A well-formed Google configuration. -/
def cfgGoogle : Config := ⟨"google", none, some "g-test"⟩

/-- An OpenAI configuration whose API key is absent. -/
def cfgNoKey : Config := ⟨"openai", none, some "g-test"⟩

/-- A query environment where the store is reachable, the search finds
nothing, and the model would answer. -/
def envEmptySearch : Search.SearchEnv :=
  ⟨true, "", fun _ _ => .ok [], fun _ => .ok "alguma resposta"⟩

/-- A query environment where every `PGVector` construction raises a
connection failure. -/
def envStoreDown : Search.SearchEnv :=
  ⟨false, "connection to server at localhost port 5432 failed",
   fun _ _ => .ok [(⟨"algum chunk"⟩, 1)], fun _ => .ok "alguma resposta"⟩

/-- A query environment where retrieval succeeds with one document but the
model call raises. -/
def envLlmFail : Search.SearchEnv :=
  ⟨true, "", fun _ _ => .ok [(⟨"contexto recuperado"⟩, 2)],
   fun _ => .error "timeout"⟩

/-- A query environment where retrieval and generation both succeed. -/
def envAllOk : Search.SearchEnv :=
  ⟨true, "", fun _ _ => .ok [(⟨"contexto recuperado"⟩, 2)],
   fun _ => .ok "resposta fundamentada"⟩

/-- An ingestion environment where everything succeeds on a tiny document. -/
def envIngestOk : Ingest.IngestEnv :=
  ⟨"document.pdf", true, [['o', 'i']], true, true, "", true, ""⟩

/-- First paragraph of the chunker counterexample: 900 copies of `a`. -/
def exParaA : List Char := List.replicate 900 'a'

/-- Second paragraph of the chunker counterexample: 900 copies of `b`. -/
def exParaB : List Char := List.replicate 900 'b'

/-- A 1802-character document made of two 900-character paragraphs
separated by a blank line. -/
def exTwoParagraphs : List Char := exParaA ++ '\n' :: '\n' :: exParaB

/-! Helper lemmas. -/

namespace Ingest

theorem totalLen_append (a b : List (List Char)) :
    totalLen (a ++ b) = totalLen a + totalLen b := by
  simp [totalLen]

theorem length_flatten_eq (l : List (List Char)) :
    l.flatten.length = totalLen l := by
  simp [totalLen, List.length_flatten]

theorem hardCutAux_le {cs : Nat} (hcs : 0 < cs) :
    ∀ (fuel : Nat) (s : List Char), s.length ≤ fuel →
      ∀ p ∈ hardCutAux cs fuel s, p.length ≤ cs := by
  intro fuel
  induction fuel with
  | zero =>
    intro s hs p hp
    have hnil : s = [] := List.eq_nil_of_length_eq_zero (Nat.le_zero.mp hs)
    subst hnil
    simp [hardCutAux] at hp
  | succ n ih =>
    intro s hs p hp
    cases s with
    | nil => simp [hardCutAux] at hp
    | cons c rest =>
      simp only [hardCutAux] at hp
      rcases List.mem_cons.mp hp with h | h
      · subst h
        exact List.length_take_le cs (c :: rest)
      · refine ih _ ?_ p h
        simp only [List.length_drop, List.length_cons]
        simp only [List.length_cons] at hs
        omega

theorem hardCut_le {cs : Nat} (hcs : 0 < cs) (s : List Char) :
    ∀ p ∈ hardCut cs s, p.length ≤ cs :=
  hardCutAux_le hcs s.length s le_rfl

theorem splitRec_le {cs : Nat} (hcs : 0 < cs) :
    ∀ (seps : List (List Char)) (text : List Char),
      ∀ p ∈ splitRec cs seps text, p.length ≤ cs := by
  intro seps
  induction seps with
  | nil =>
    intro text p hp
    simp only [splitRec] at hp
    split at hp
    · next h =>
      simp only [List.mem_singleton] at hp
      subst hp; exact h
    · exact hardCut_le hcs text p hp
  | cons sep restSeps ih =>
    intro text p hp
    simp only [splitRec] at hp
    split at hp
    · next h =>
      simp only [List.mem_singleton] at hp
      subst hp; exact h
    · split at hp
      · exact hardCut_le hcs text p hp
      · split at hp
        · rcases List.mem_flatMap.mp hp with ⟨piece, _, hpp⟩
          exact ih piece p hpp
        · exact ih text p hp

theorem keepOverlap_bound {ov cs plen : Nat} (hplen : plen ≤ cs) :
    ∀ l : List (List Char), totalLen (keepOverlap ov cs plen l) + plen ≤ cs := by
  intro l
  induction l with
  | nil => simpa [keepOverlap, totalLen] using hplen
  | cons p rest ih =>
    simp only [keepOverlap]
    split
    · exact ih
    · next h => push_neg at h; omega

theorem mergeGo_le {cs ov : Nat} :
    ∀ (pieces cur : List (List Char)),
      (∀ p ∈ pieces, p.length ≤ cs) → totalLen cur ≤ cs →
      ∀ c ∈ mergeGo cs ov pieces cur, c.length ≤ cs := by
  intro pieces
  induction pieces with
  | nil =>
    intro cur _ hcur c hc
    simp only [mergeGo] at hc
    split at hc
    · simp at hc
    · simp only [List.mem_singleton] at hc
      subst hc
      simpa [length_flatten_eq] using hcur
  | cons p rest ih =>
    intro cur hps hcur c hc
    have hp : p.length ≤ cs := hps p (List.mem_cons_self p rest)
    have hrest : ∀ q ∈ rest, q.length ≤ cs :=
      fun q hq => hps q (List.mem_cons_of_mem p hq)
    simp only [mergeGo] at hc
    split at hc
    · next hfit =>
      refine ih _ hrest ?_ c hc
      simpa [totalLen_append, totalLen] using hfit
    · next hnofit =>
      rcases List.mem_cons.mp hc with h | h
      · subst h
        simpa [length_flatten_eq] using hcur
      · refine ih _ hrest ?_ c h
        have hko := @keepOverlap_bound ov cs p.length hp cur
        simpa [totalLen_append, totalLen] using hko

theorem chunkText_le {cs ov : Nat} (hcs : 0 < cs) (seps : List (List Char))
    (text : List Char) : ∀ c ∈ chunkText cs ov seps text, c.length ≤ cs := by
  intro c hc
  refine mergeGo_le _ [] ?_ (by simp [totalLen]) c hc
  intro p hp
  exact splitRec_le hcs seps text p (List.mem_filter.mp hp).1

end Ingest

theorem search_documents_nil_of_search_error {cfg : Config}
    {env : Search.SearchEnv} {q : String} {k : Nat}
    (h : (env.search_result q k).isOk = false) :
    Search.search_documents cfg env q k = [] := by
  unfold Search.search_documents
  cases hv : Search.get_vector_store cfg env with
  | error e => rfl
  | ok vs =>
    cases hs : env.search_result q k with
    | error e => rfl
    | ok rs =>
      rw [hs] at h
      simp [Except.isOk, Except.toBool] at h

theorem process_pdf_ok_chunks {cfg : Config} {env : Ingest.IngestEnv}
    {chunks : List (List Char)} {s : Ingest.IngestSummary}
    (h : Ingest.process_pdf cfg env = .ok (chunks, s)) :
    chunks = Ingest.split_documents env.pages := by
  unfold Ingest.process_pdf at h
  split at h
  · simp at h
  · split at h
    · simp at h
    · split at h
      · simp only [Except.ok.injEq, Prod.mk.injEq] at h
        exact h.1.symm
      · simp at h

theorem numbered_blocks_eq_enumFrom :
    ∀ (l : List (Doc × Score)) (i : Nat),
      (List.enumFrom i l).map
          (fun pr => "[" ++ toString pr.1 ++ "] " ++ pr.2.1.page_content) =
        Search.numbered_blocks i l := by
  intro l
  induction l with
  | nil => intro i; simp [Search.numbered_blocks]
  | cons d rest ih =>
    intro i
    cases d with
    | mk doc sc => simp [List.enumFrom, Search.numbered_blocks, ih]

theorem chat_loop_cons (cfg : Config) (env : Search.SearchEnv) (i : String)
    (rest : List String) :
    Chat.chat_loop cfg env (i :: rest) =
      if Chat.chat_step cfg env i = Chat.StepAction.done
      then [Chat.chat_step cfg env i]
      else Chat.chat_step cfg env i :: Chat.chat_loop cfg env rest := rfl

/-! Claims. -/

/-- Claim C1: for every question, if the Vector Store search returns an
empty result set, `search_and_answer` returns exactly the fixed refusal
sentence "Não tenho informações necessárias para responder sua pergunta."
and the language model is never invoked. -/
theorem C1_empty_search_refuses_without_llm (cfg : Config)
    (env : Search.SearchEnv) (question : String)
    (h : env.search_result question 10 = .ok []) :
    Search.search_and_answer cfg env question =
      ⟨"Não tenho informações necessárias para responder sua pergunta.",
       false⟩ := by
  unfold Search.search_and_answer Search.search_documents
  cases hv : Search.get_vector_store cfg env with
  | error e => rfl
  | ok vs => rw [h]; rfl

/-- Witness for C1 at a concrete configuration and environment. -/
theorem C1_witness :
    envEmptySearch.search_result "pergunta" 10 = .ok [] ∧
      Search.search_and_answer cfgOpenai envEmptySearch "pergunta" =
        ⟨"Não tenho informações necessárias para responder sua pergunta.",
         false⟩ :=
  ⟨rfl, C1_empty_search_refuses_without_llm cfgOpenai envEmptySearch
    "pergunta" rfl⟩

/-- Claim C2: `search_and_answer` is total on the query path — whenever
retrieval, model construction, or model invocation fails, the call still
returns one of the two user-visible fallback strings, and the chat loop
answers the question and continues to the next turn instead of
terminating. -/
theorem C2_query_failures_become_fallback_strings (cfg : Config)
    (env : Search.SearchEnv) (question : String) (rest : List String)
    (hfail : (env.search_result (pyStrip question) 10).isOk = false ∨
      (Search.get_llm cfg).isOk = false ∨
      (env.llm_response (Search.PROMPT_TEMPLATE
        (Search.format_context
          (Search.search_documents cfg env (pyStrip question) 10))
        (pyStrip question))).isOk = false)
    (hne : pyStrip question ≠ "")
    (hcmd : pyLower (pyStrip question) ≠ "sair" ∧
      pyLower (pyStrip question) ≠ "quit" ∧
      pyLower (pyStrip question) ≠ "exit" ∧
      pyLower (pyStrip question) ≠ "help" ∧
      pyLower (pyStrip question) ≠ "status") :
    ((Search.search_and_answer cfg env (pyStrip question)).answer =
        "Erro interno. Tente novamente." ∨
      (Search.search_and_answer cfg env (pyStrip question)).answer =
        "Não tenho informações necessárias para responder sua pergunta.") ∧
      Chat.chat_loop cfg env (question :: rest) =
        Chat.StepAction.answered
            ((Search.search_and_answer cfg env (pyStrip question)).answer) ::
          Chat.chat_loop cfg env rest := by
  constructor
  · cases hd : Search.search_documents cfg env (pyStrip question) 10 with
    | nil =>
      right
      unfold Search.search_and_answer
      rw [hd]
      rfl
    | cons d ds =>
      rcases hfail with h1 | h2 | h3
      · rw [search_documents_nil_of_search_error h1] at hd
        exact absurd hd (by simp)
      · cases hl : Search.get_llm cfg with
        | error e =>
          left
          unfold Search.search_and_answer
          rw [hd]
          simp [hl]
        | ok llm =>
          rw [hl] at h2
          simp [Except.isOk, Except.toBool] at h2
      · rw [hd] at h3
        cases hl : Search.get_llm cfg with
        | error e =>
          left
          unfold Search.search_and_answer
          rw [hd]
          simp [hl]
        | ok llm =>
          cases hr : env.llm_response (Search.PROMPT_TEMPLATE
              (Search.format_context (d :: ds)) (pyStrip question)) with
          | error e =>
            left
            unfold Search.search_and_answer
            rw [hd]
            simp [hl, hr]
          | ok resp =>
            rw [hr] at h3
            simp [Except.isOk, Except.toBool] at h3
  · rcases hcmd with ⟨h1, h2, h3, h4, h5⟩
    have hstep : Chat.chat_step cfg env question =
        Chat.StepAction.answered
          ((Search.search_and_answer cfg env (pyStrip question)).answer) := by
      simp [Chat.chat_step, h1, h2, h3, h4, h5, hne]
    rw [chat_loop_cons, hstep]
    simp

/-- Witness for C2 at a concrete environment whose model call fails. -/
theorem C2_witness :
    (envLlmFail.llm_response (Search.PROMPT_TEMPLATE
        (Search.format_context
          (Search.search_documents cfgOpenai envLlmFail
            (pyStrip " pergunta ") 10))
        (pyStrip " pergunta "))).isOk = false ∧
      (((Search.search_and_answer cfgOpenai envLlmFail
            (pyStrip " pergunta ")).answer =
          "Erro interno. Tente novamente." ∨
        (Search.search_and_answer cfgOpenai envLlmFail
            (pyStrip " pergunta ")).answer =
          "Não tenho informações necessárias para responder sua pergunta.") ∧
        Chat.chat_loop cfgOpenai envLlmFail [" pergunta "] =
          Chat.StepAction.answered
              ((Search.search_and_answer cfgOpenai envLlmFail
                (pyStrip " pergunta ")).answer) ::
            Chat.chat_loop cfgOpenai envLlmFail []) :=
  ⟨rfl,
   C2_query_failures_become_fallback_strings cfgOpenai envLlmFail
     " pergunta " [] (Or.inr (Or.inr rfl)) (by decide)
     ⟨by decide, by decide, by decide, by decide, by decide⟩⟩

/-- Claim C3 counterexample: with a configuration whose credentials are in
order but a Vector Store whose connection fails, the construction raises a
connection error, yet `search_documents` returns the empty result list —
the failure is silently converted into an empty result set instead of
surfacing as a distinguishable error, and the caller answers with the
refusal sentence. -/
theorem C3_counterexample :
    Search.get_vector_store cfgOpenai envStoreDown =
        .error "connection to server at localhost port 5432 failed" ∧
      Search.search_documents cfgOpenai envStoreDown "qualquer pergunta" 10 =
        [] ∧
      Search.search_and_answer cfgOpenai envStoreDown "qualquer pergunta" =
        ⟨"Não tenho informações necessárias para responder sua pergunta.",
         false⟩ :=
  ⟨rfl, rfl, rfl⟩

/-- Claim C3 (amended): when the Vector Store connection fails during a
search, `search_documents` catches the exception and returns the empty
result list — no distinguishable error outcome reaches the caller — and
`search_and_answer` consequently returns the refusal sentence. -/
theorem C3_store_failure_becomes_empty_results (cfg : Config)
    (env : Search.SearchEnv) (q : String) (k : Nat) (e : String)
    (h : Search.get_vector_store cfg env = .error e) :
    Search.search_documents cfg env q k = [] ∧
      Search.search_and_answer cfg env q =
        ⟨"Não tenho informações necessárias para responder sua pergunta.",
         false⟩ := by
  have hnil : ∀ k0 : Nat, Search.search_documents cfg env q k0 = [] := by
    intro k0
    unfold Search.search_documents
    rw [h]
  refine ⟨hnil k, ?_⟩
  unfold Search.search_and_answer
  rw [hnil 10]
  rfl

/-- Witness for C3 (amended) at a concrete failing store. -/
theorem C3_witness :
    Search.get_vector_store cfgOpenai envStoreDown =
        .error "connection to server at localhost port 5432 failed" ∧
      Search.search_documents cfgOpenai envStoreDown "pergunta" 5 = [] ∧
      Search.search_and_answer cfgOpenai envStoreDown "pergunta" =
        ⟨"Não tenho informações necessárias para responder sua pergunta.",
         false⟩ :=
  ⟨rfl,
   (C3_store_failure_becomes_empty_results cfgOpenai envStoreDown
     "pergunta" 5 "connection to server at localhost port 5432 failed" rfl).1,
   (C3_store_failure_becomes_empty_results cfgOpenai envStoreDown
     "pergunta" 5 "connection to server at localhost port 5432 failed" rfl).2⟩

/-- Claim C4: `format_context` renders each retrieved chunk as a numbered
block `[i] <chunk text>` with `i` starting at 1 in the order the results
were returned, blocks joined by blank lines, and returns exactly the fixed
sentinel "Nenhum contexto encontrado." for the empty result list. -/
theorem C4_format_context_numbered_blocks :
    Search.format_context [] = "Nenhum contexto encontrado." ∧
      ∀ documents : List (Doc × Score), documents ≠ [] →
        Search.format_context documents =
          String.intercalate "\n\n" (Search.numbered_blocks 1 documents) := by
  refine ⟨rfl, ?_⟩
  intro documents hne
  unfold Search.format_context
  rw [if_neg (by simpa [List.isEmpty_iff] using hne)]
  rw [numbered_blocks_eq_enumFrom]

/-- Witness for C4 at a concrete one-element result list. -/
theorem C4_witness :
    ([(⟨"alpha"⟩, (0 : Score))] ≠ ([] : List (Doc × Score))) ∧
      Search.format_context [(⟨"alpha"⟩, (0 : Score))] =
        String.intercalate "\n\n"
          (Search.numbered_blocks 1 [(⟨"alpha"⟩, (0 : Score))]) :=
  ⟨by decide, C4_format_context_numbered_blocks.2 _ (by decide)⟩

/-- Claim C5 counterexample: with the OpenAI provider configured and its
API key absent, the ingestion server starts successfully — no failure at
process startup — and the failure occurs only when the ingestion request
is served, as an HTTP 500 at request time. -/
theorem C5_counterexample :
    Ingest.ingest_server_startup cfgNoKey = .ok "PDF Ingestão API" ∧
      Ingest.ingest_endpoint cfgNoKey envIngestOk =
        (500, "OPENAI_API_KEY não configurada") :=
  ⟨rfl, rfl⟩

/-- Claim C5 (amended): a missing API key for the configured provider makes
`get_embeddings` raise `ValueError` the first time it is called, not at
process startup: the chat entrypoint's startup health check fails so the
chat process serves no question, while the ingestion server starts
successfully and fails only when an ingestion request is processed. -/
theorem C5_missing_key_fails_lazily (cfg : Config) (envS : Search.SearchEnv)
    (envI : Ingest.IngestEnv) (inputs : List String)
    (h : (cfg.llm_provider = "openai" ∧ missingKey cfg.openai_api_key = true) ∨
      (cfg.llm_provider = "google" ∧ missingKey cfg.google_api_key = true)) :
    (Search.get_embeddings cfg).isOk = false ∧
      (Ingest.get_embeddings cfg).isOk = false ∧
      Chat.chat_main cfg envS inputs = [] ∧
      Ingest.ingest_server_startup cfg = .ok "PDF Ingestão API" ∧
      (Ingest.ingest_endpoint cfg envI).1 = 500 := by
  have hs : Search.get_embeddings cfg =
      .error (if cfg.llm_provider = "openai" then
        "OPENAI_API_KEY não configurada" else "GOOGLE_API_KEY não configurada") := by
    rcases h with ⟨hp, hk⟩ | ⟨hp, hk⟩ <;> simp [Search.get_embeddings, hp, hk]
  have hi : Ingest.get_embeddings cfg =
      .error (if cfg.llm_provider = "openai" then
        "OPENAI_API_KEY não configurada" else "GOOGLE_API_KEY não configurada") := by
    rcases h with ⟨hp, hk⟩ | ⟨hp, hk⟩ <;> simp [Ingest.get_embeddings, hp, hk]
  refine ⟨by simp [hs, Except.isOk, Except.toBool], by simp [hi, Except.isOk, Except.toBool], ?_, rfl, ?_⟩
  · unfold Chat.chat_main Chat.check_system_status Search.get_vector_store
    rw [hs]
    simp [Except.isOk, Except.toBool]
  · unfold Ingest.ingest_endpoint Ingest.process_pdf Ingest.get_vector_store
    rw [hi]
    cases hpd : envI.pdf_exists <;> simp [hpd]

/-- Witness for C5 (amended) at the concrete key-less configuration. -/
theorem C5_witness :
    ((cfgNoKey.llm_provider = "openai" ∧
        missingKey cfgNoKey.openai_api_key = true) ∨
      (cfgNoKey.llm_provider = "google" ∧
        missingKey cfgNoKey.google_api_key = true)) ∧
      ((Search.get_embeddings cfgNoKey).isOk = false ∧
        (Ingest.get_embeddings cfgNoKey).isOk = false ∧
        Chat.chat_main cfgNoKey envAllOk ["pergunta"] = [] ∧
        Ingest.ingest_server_startup cfgNoKey = .ok "PDF Ingestão API" ∧
        (Ingest.ingest_endpoint cfgNoKey envIngestOk).1 = 500) :=
  ⟨Or.inl ⟨rfl, rfl⟩,
   C5_missing_key_fails_lazily cfgNoKey envAllOk envIngestOk ["pergunta"]
     (Or.inl ⟨rfl, rfl⟩)⟩

/-- Claim C6 (amended): the Chunker is configured with `chunk_size` 1000,
`chunk_overlap` 150 and the separator priority order double newline,
single newline, space, empty string, and every produced chunk has length
at most 1000 characters; the 150 units are only a budget for the overlap
carried between successive chunks, which may be absent — not an exact
guarantee. -/
theorem C6_chunker_configuration_and_size_bound :
    Ingest.chunk_size = 1000 ∧ Ingest.chunk_overlap = 150 ∧
      Ingest.separators = [['\n', '\n'], ['\n'], [' '], []] ∧
      ∀ (text : List Char) (c : List Char),
        c ∈ Ingest.chunkText Ingest.chunk_size Ingest.chunk_overlap
            Ingest.separators text →
          c.length ≤ Ingest.chunk_size :=
  ⟨rfl, rfl, rfl, fun text c hc =>
    Ingest.chunkText_le (by decide) Ingest.separators text c hc⟩

/-- Witness for C6 (amended) at a concrete two-character document. -/
theorem C6_witness :
    (['o', 'i'] ∈ Ingest.chunkText Ingest.chunk_size Ingest.chunk_overlap
        Ingest.separators ['o', 'i']) ∧
      (['o', 'i'] : List Char).length ≤ Ingest.chunk_size :=
  ⟨by decide,
   C6_chunker_configuration_and_size_bound.2.2.2 ['o', 'i'] ['o', 'i']
     (by decide)⟩

set_option maxRecDepth 40000 in
/-- Claim C6 counterexample: the 1802-character document made of two
900-character paragraphs separated by a blank line is chunked into exactly
the two paragraphs, and the last 150 characters of the first chunk differ
from the first 150 characters of the second chunk — consecutive chunks do
not share 150 units of overlap. -/
theorem C6_counterexample :
    Ingest.chunkText Ingest.chunk_size Ingest.chunk_overlap Ingest.separators
        exTwoParagraphs = [exParaA, exParaB] ∧
      List.drop (900 - Ingest.chunk_overlap) exParaA ≠
        List.take Ingest.chunk_overlap exParaB :=
  ⟨by decide, by decide⟩

/-- Claim C7: the chunk sequence written by ingestion does not depend on
the provider configuration — two ingestion runs over the same document,
one configured with the `openai` provider and one with the `google`
provider, that both complete produce identical chunk sequences. -/
theorem C7_chunks_independent_of_provider (cfgA cfgB : Config)
    (env : Ingest.IngestEnv) (_hA : cfgA.llm_provider = "openai")
    (_hB : cfgB.llm_provider = "google") (chunksA chunksB : List (List Char))
    (sA sB : Ingest.IngestSummary)
    (h1 : Ingest.process_pdf cfgA env = .ok (chunksA, sA))
    (h2 : Ingest.process_pdf cfgB env = .ok (chunksB, sB)) :
    chunksA = chunksB := by
  rw [process_pdf_ok_chunks h1, process_pdf_ok_chunks h2]

/-- Witness for C7: the same tiny document ingested once with the OpenAI
configuration and once with the Google configuration. -/
theorem C7_witness :
    Ingest.process_pdf cfgOpenai envIngestOk =
        .ok ([['o', 'i']],
          ⟨"success", "PDF processado com sucesso. 1 chunks criados.", 1⟩) ∧
      Ingest.process_pdf cfgGoogle envIngestOk =
        .ok ([['o', 'i']],
          ⟨"success", "PDF processado com sucesso. 1 chunks criados.", 1⟩) ∧
      ([['o', 'i']] : List (List Char)) = [['o', 'i']] :=
  ⟨rfl, rfl,
   C7_chunks_independent_of_provider cfgOpenai cfgGoogle envIngestOk rfl rfl
     [['o', 'i']] [['o', 'i']] _ _ rfl rfl⟩

/-- Claim C8: every Vector Store handle the system constructs, on the
ingestion path and on the query path, carries the single fixed collection
name `pdf_documents`. -/
theorem C8_single_collection_name (cfg : Config) (envS : Search.SearchEnv)
    (envI : Ingest.IngestEnv) (vsS vsI : VectorStore) :
    (Search.get_vector_store cfg envS = .ok vsS →
        vsS.collection_name = "pdf_documents") ∧
      (Ingest.get_vector_store cfg envI = .ok vsI →
        vsI.collection_name = "pdf_documents") := by
  constructor
  · intro h
    unfold Search.get_vector_store at h
    split at h
    · simp at h
    · split at h
      · simp only [Except.ok.injEq] at h
        rw [← h]
      · simp at h
  · intro h
    unfold Ingest.get_vector_store at h
    split at h
    · simp at h
    · split at h
      · simp only [Except.ok.injEq] at h
        rw [← h]
      · split at h
        · simp only [Except.ok.injEq] at h
          rw [← h]
        · simp at h

/-- Witness for C8 at concrete reachable stores on both paths. -/
theorem C8_witness :
    Search.get_vector_store cfgOpenai envAllOk =
        .ok ⟨"pdf_documents", false⟩ ∧
      Ingest.get_vector_store cfgOpenai envIngestOk =
        .ok ⟨"pdf_documents", false⟩ ∧
      (⟨"pdf_documents", false⟩ : VectorStore).collection_name =
        "pdf_documents" ∧
      (⟨"pdf_documents", false⟩ : VectorStore).collection_name =
        "pdf_documents" :=
  ⟨rfl, rfl,
   (C8_single_collection_name cfgOpenai envAllOk envIngestOk
     ⟨"pdf_documents", false⟩ ⟨"pdf_documents", false⟩).1 rfl,
   (C8_single_collection_name cfgOpenai envAllOk envIngestOk
     ⟨"pdf_documents", false⟩ ⟨"pdf_documents", false⟩).2 rfl⟩

/-- Claim C9: in the chat loop, an input equal case-insensitively (after
stripping) to `sair`, `quit` or `exit` terminates the loop; `help` prints
the usage text and continues; `status` re-runs the health check and
continues; any other non-empty input is answered via the pipeline and the
loop continues to the next turn. -/
theorem C9_command_dispatch (cfg : Config) (env : Search.SearchEnv)
    (input : String) (rest : List String) :
    ((pyLower (pyStrip input) = "sair" ∨ pyLower (pyStrip input) = "quit" ∨
        pyLower (pyStrip input) = "exit") →
      Chat.chat_step cfg env input = Chat.StepAction.done ∧
        Chat.chat_loop cfg env (input :: rest) = [Chat.StepAction.done]) ∧
      (pyLower (pyStrip input) = "help" →
        Chat.chat_step cfg env input = Chat.StepAction.helped ∧
          Chat.chat_loop cfg env (input :: rest) =
            Chat.StepAction.helped :: Chat.chat_loop cfg env rest) ∧
      (pyLower (pyStrip input) = "status" →
        Chat.chat_step cfg env input =
            Chat.StepAction.statusChecked (Chat.check_system_status cfg env) ∧
          Chat.chat_loop cfg env (input :: rest) =
            Chat.StepAction.statusChecked (Chat.check_system_status cfg env) ::
              Chat.chat_loop cfg env rest) ∧
      (pyStrip input ≠ "" → pyLower (pyStrip input) ≠ "sair" →
        pyLower (pyStrip input) ≠ "quit" → pyLower (pyStrip input) ≠ "exit" →
        pyLower (pyStrip input) ≠ "help" → pyLower (pyStrip input) ≠ "status" →
        Chat.chat_step cfg env input =
            Chat.StepAction.answered
              ((Search.search_and_answer cfg env (pyStrip input)).answer) ∧
          Chat.chat_loop cfg env (input :: rest) =
            Chat.StepAction.answered
                ((Search.search_and_answer cfg env (pyStrip input)).answer) ::
              Chat.chat_loop cfg env rest) := by
  refine ⟨?_, ?_, ?_, ?_⟩
  · intro h
    have hstep : Chat.chat_step cfg env input = Chat.StepAction.done := by
      simp [Chat.chat_step, h]
    exact ⟨hstep, by rw [chat_loop_cons, hstep]; simp⟩
  · intro h
    have hstep : Chat.chat_step cfg env input = Chat.StepAction.helped := by
      simp [Chat.chat_step, h]
    exact ⟨hstep, by rw [chat_loop_cons, hstep]; simp⟩
  · intro h
    have hstep : Chat.chat_step cfg env input =
        Chat.StepAction.statusChecked (Chat.check_system_status cfg env) := by
      simp [Chat.chat_step, h]
    exact ⟨hstep, by rw [chat_loop_cons, hstep]; simp⟩
  · intro hne h1 h2 h3 h4 h5
    have hstep : Chat.chat_step cfg env input =
        Chat.StepAction.answered
          ((Search.search_and_answer cfg env (pyStrip input)).answer) := by
      simp [Chat.chat_step, h1, h2, h3, h4, h5, hne]
    exact ⟨hstep, by rw [chat_loop_cons, hstep]; simp⟩

/-- Witness for C9: the exit command, upper-case and padded, at a concrete
configuration and environment. -/
theorem C9_witness :
    (pyLower (pyStrip "  SAIR ") = "sair" ∨
      pyLower (pyStrip "  SAIR ") = "quit" ∨
      pyLower (pyStrip "  SAIR ") = "exit") ∧
      Chat.chat_step cfgOpenai envAllOk "  SAIR " = Chat.StepAction.done ∧
      Chat.chat_loop cfgOpenai envAllOk ["  SAIR ", "depois"] =
        [Chat.StepAction.done] :=
  ⟨Or.inl (by decide),
   ((C9_command_dispatch cfgOpenai envAllOk "  SAIR " ["depois"]).1
     (Or.inl (by decide))).1,
   ((C9_command_dispatch cfgOpenai envAllOk "  SAIR " ["depois"]).1
     (Or.inl (by decide))).2⟩

/-- Claim C10: a chat-loop input that is empty or whitespace-only never
reaches the answering pipeline: the turn results in a re-prompt and the
loop continues to the next turn with no other effect. -/
theorem C10_blank_input_reprompts (cfg : Config) (env : Search.SearchEnv)
    (input : String) (rest : List String) (h : pyStrip input = "") :
    Chat.chat_step cfg env input = Chat.StepAction.reprompted ∧
      Chat.chat_loop cfg env (input :: rest) =
        Chat.StepAction.reprompted :: Chat.chat_loop cfg env rest := by
  have hpl : pyLower "" = "" := rfl
  have hstep : Chat.chat_step cfg env input = Chat.StepAction.reprompted := by
    simp [Chat.chat_step, h, hpl]
  exact ⟨hstep, by rw [chat_loop_cons, hstep]; simp⟩

/-- Witness for C10 at a whitespace-only input. -/
theorem C10_witness :
    pyStrip "   " = "" ∧
      Chat.chat_step cfgOpenai envAllOk "   " = Chat.StepAction.reprompted ∧
      Chat.chat_loop cfgOpenai envAllOk ["   ", "depois"] =
        Chat.StepAction.reprompted ::
          Chat.chat_loop cfgOpenai envAllOk ["depois"] :=
  ⟨by decide,
   (C10_blank_input_reprompts cfgOpenai envAllOk "   " ["depois"]
     (by decide)).1,
   (C10_blank_input_reprompts cfgOpenai envAllOk "   " ["depois"]
     (by decide)).2⟩
